import Mathlib

/-!
Verification development for the transaction-analytics engine of the
`dashboard_financeiro_AI` repository.

The Python source operates on pandas DataFrames of transactions.  The shallow
embedding below models a prepared transaction (`Tx`) as the quadruple of the
columns the analytics code actually reads after `FinancialAnalyzer._prepare_data`
ran: the month key `Mes_Str` (a `Nat` standing for the chronologically ordered
"YYYY-MM" string), `Descrição`, `Valor` and `Categoria`.  Monetary amounts are
modelled as exact rationals (`ℚ`); the source uses IEEE floats, and the spots
where float semantics could diverge (division by zero producing `inf`/`NaN`)
are flagged in comments at the definition concerned.  Comparisons of the form
`x > mean + 1.5 * std`, whose right-hand side involves a square root, are
encoded by the equivalent sign-and-square comparison on rationals; the bridge
to the real-number reading is proved as a lemma (`spikeCond_iff_real`).
-/

/-- Absolute value on `ℚ`, written out so that it evaluates inside the
kernel; `qabs_eq_abs` identifies it with `|·|`. -/
def qabs (q : ℚ) : ℚ := if q < 0 then -q else q

/-- Binary maximum on `ℚ`, written out so that it evaluates inside the
kernel; `qmax_eq_max` identifies it with `max`. -/
def qmax (a b : ℚ) : ℚ := if a ≤ b then b else a

/-- Mean of a list of rationals, as `pandas.Series.mean`.  For the empty list
`ℚ` division by zero yields `0` (pandas yields `NaN`); every use below is
guarded by a length check taken from the source. -/
def qmean (l : List ℚ) : ℚ := l.sum / l.length

/-- Sample variance (`ddof = 1`), the square of `pandas.Series.std`.  The
source never takes `std` of fewer than 2 observations on the paths modelled
here. -/
def sampleVar (l : List ℚ) : ℚ :=
  ((l.map (fun x => (x - qmean l) ^ 2)).sum) / ((l.length : ℚ) - 1)

/-- The value `series.rolling(3).mean().iloc[-1]`: the mean of the last three
entries.  Meaningful only when the list has at least 3 entries, exactly as the
source guards it. -/
def rollingLast3 (l : List ℚ) : ℚ := ((l.drop (l.length - 3)).sum) / 3

/-- The index `⌊(n-1) * 0.95⌋` of the 95th percentile, via natural division
(`(n-1) * 19 / 20`, equal to the floor for every `n ≥ 1`). -/
def q95idx (n : Nat) : Nat := (n - 1) * 19 / 20

/-- The 95th percentile with pandas' default linear interpolation:
for the ascending sort `s` of the data and `h = (n-1) * 0.95`,
`s[⌊h⌋] + (h - ⌊h⌋) * (s[⌊h⌋+1] - s[⌊h⌋])`. -/
def quantile95 (l : List ℚ) : ℚ :=
  if l.length = 0 then 0
  else
    ((List.insertionSort (· ≤ ·) l).getD (q95idx l.length) 0) +
      (((l.length : ℚ) - 1) * (19/20) - (q95idx l.length : ℚ)) *
        (((List.insertionSort (· ≤ ·) l).getD (q95idx l.length + 1)
            ((List.insertionSort (· ≤ ·) l).getD (q95idx l.length) 0)) -
          ((List.insertionSort (· ≤ ·) l).getD (q95idx l.length) 0))

/-- Numerator of the Gini index as computed at line 520 of
`advanced_analytics.py`: with `s` the ascending sort,
`(2 * arange(1, n+1) - n - 1) @ s`. -/
def giniNum (s : List ℚ) : ℚ :=
  ∑ i in Finset.range s.length, (2 * ((i : ℚ) + 1) - s.length - 1) * s.getD i 0

/-- Gini index of a list of shares, exactly as the source:
`(2*arange(1,n+1) - n - 1) @ sorted / (n * sorted.sum())`. -/
def giniQ (p : List ℚ) : ℚ :=
  giniNum (List.insertionSort (· ≤ ·) p) /
    (((List.insertionSort (· ≤ ·) p).length : ℚ) * (List.insertionSort (· ≤ ·) p).sum)

/-- Raw transaction row as seen by `FinancialAnalyzer._prepare_data`.  A field
is `none` when the pandas parse (`pd.to_datetime(..., errors='coerce')` /
`pd.to_numeric(..., errors='coerce')`) fails or the cell is missing. -/
structure RawTx where
  dateRaw : Option Nat
  titleRaw : Option String
  amountRaw : Option ℚ
  categoriaRaw : Option String
deriving Repr, DecidableEq

/-- Prepared transaction: the columns `Mes_Str`, `Descrição`, `Valor`,
`Categoria` produced by `_prepare_data`. -/
structure Tx where
  month : Nat
  descricao : String
  valor : ℚ
  categoria : String
deriving Repr, DecidableEq

/-- Embedding of `FinancialAnalyzer._prepare_data` (both branches normalise to
the same columns): parse date and amount with coercion, default the
description to `'Sem descrição'` and the category to `'Outros'`, then drop the
rows whose date or amount did not parse (`dropna(subset=['Data','Valor'])`). -/
def prepare_data (rows : List RawTx) : List Tx :=
  rows.filterMap (fun r =>
    match r.dateRaw, r.amountRaw with
    | some d, some v => some ⟨d, r.titleRaw.getD "Sem descrição", v, r.categoriaRaw.getD "Outros"⟩
    | _, _ => none)

/-- The `Tipo` column: `'Receita' if x > 0 else 'Despesa'`. -/
def isReceita (t : Tx) : Bool := decide (0 < t.valor)

/-- The income subset `self.receitas`. -/
def receitas (txs : List Tx) : List Tx := txs.filter isReceita

/-- The expense subset `self.despesas` (everything not strictly positive). -/
def despesas (txs : List Tx) : List Tx := txs.filter (fun t => !(isReceita t))

/-- The `Valor_Absoluto` column. -/
def valorAbsoluto (t : Tx) : ℚ := qabs t.valor

/-- The distinct month keys of a transaction subset, ascending — the group
keys of a pandas `groupby('Mes_Str')`, which sorts them. -/
def monthsOf (l : List Tx) : List Nat :=
  List.insertionSort (· ≤ ·) (l.map Tx.month).dedup

/-- Sum of `Valor_Absoluto` over the rows of `l` falling in month `m`. -/
def monthTotal (l : List Tx) (m : Nat) : ℚ :=
  ((l.filter (fun t => t.month == m)).map valorAbsoluto).sum

/-- `self.despesas.groupby('Mes_Str')['Valor_Absoluto'].sum()` as an ordered
list of (month, total) pairs. -/
def monthlyExpenses (txs : List Tx) : List (Nat × ℚ) :=
  (monthsOf (despesas txs)).map (fun m => (m, monthTotal (despesas txs) m))

/-- The monthly expense totals alone (the values of the series above). -/
def spikeVals (txs : List Tx) : List ℚ := (monthlyExpenses txs).map Prod.snd

/-- A `FinancialAlert` record.  The formatted `message` string is not
modelled; the discriminating payload (type, severity, value, date, the
transaction description and the category) is. -/
structure FinancialAlert where
  type : String
  severity : String
  value : ℚ
  date : Option Nat
  descricao : Option String
  categoria : Option String
deriving Repr, DecidableEq

/-- The spike test `expense > mean + 1.5 * std` of line 237, encoded over `ℚ`:
since `std = sqrt(var) ≥ 0`, the float comparison is equivalent to
`expense - mean > 0` together with `4 * (expense - mean)^2 > 9 * var`
(see `spikeCond_iff_real`). -/
def spikeCond (vals : List ℚ) (e : ℚ) : Bool :=
  decide (qmean vals < e) && decide (9 * sampleVar vals < 4 * (e - qmean vals) ^ 2)

/-- Check 1 of `detect_anomalies`: monthly spend spikes, requiring at least 3
months of expense totals. -/
def spikeAlerts (txs : List Tx) : List FinancialAlert :=
  if 3 ≤ (monthlyExpenses txs).length then
    ((monthlyExpenses txs).filter (fun p => spikeCond (spikeVals txs) p.2)).map
      (fun p => ⟨"expense_spike", "high", p.2, some p.1, none, none⟩)
  else []

/-- Check 2 of `detect_anomalies` (only run on Nubank-shaped data): every
expense strictly above the 95th percentile of absolute expense amounts. -/
def largeAlerts (txs : List Tx) : List FinancialAlert :=
  ((despesas txs).filter
      (fun t => decide (quantile95 ((despesas txs).map valorAbsoluto) < valorAbsoluto t))).map
    (fun t => ⟨"large_transaction", "medium", valorAbsoluto t, some t.month,
               some t.descricao, some t.categoria⟩)

/-- The distinct categories of a transaction subset (first-appearance order;
no claim depends on the ordering). -/
def categoriesOf (l : List Tx) : List String := (l.map Tx.categoria).dedup

/-- Sum of `Valor_Absoluto` over the rows of `l` in category `c`. -/
def categoryTotal (l : List Tx) (c : String) : ℚ :=
  ((l.filter (fun t => t.categoria == c)).map valorAbsoluto).sum

/-- Check 3 of `detect_anomalies`: categories holding more than 30% of total
expense. -/
def concentrationAlerts (txs : List Tx) : List FinancialAlert :=
  (categoriesOf (despesas txs)).filterMap (fun c =>
    if (3 : ℚ) / 10 <
        categoryTotal (despesas txs) c / ((despesas txs).map valorAbsoluto).sum then
      some ⟨"category_overspending", "medium", categoryTotal (despesas txs) c,
            none, none, some c⟩
    else none)

/-- The monthly savings rate `(Receita - Despesa) / Receita * 100` of a month.
In `ℚ` a month without income gives `0` (division by zero); in the float
source it gives `±inf`/`NaN` — the one consumer below branches on the sign of
the income total first, so the alert decisions agree with the float code. -/
def savingsRate (txs : List Tx) (m : Nat) : ℚ :=
  (monthTotal (receitas txs) m - monthTotal (despesas txs) m) /
    monthTotal (receitas txs) m * 100

/-- Check 4 of `detect_anomalies`: months with savings rate below 10%
(`critical` when negative, `medium` otherwise), run only when income rows
exist.  A month with zero income and positive expense has float rate `-inf`,
which is below every threshold and negative, hence `critical`; the recorded
`value` for that branch differs from the unrepresentable `-inf`. -/
def lowSavingsAlerts (txs : List Tx) : List FinancialAlert :=
  if (receitas txs).isEmpty || (despesas txs).isEmpty then []
  else
    (monthsOf txs).filterMap (fun m =>
      if 0 < monthTotal (receitas txs) m then
        if savingsRate txs m < 10 then
          if savingsRate txs m < 0 then
            some ⟨"low_savings", "critical", savingsRate txs m, some m, none, none⟩
          else
            some ⟨"low_savings", "medium", savingsRate txs m, some m, none, none⟩
        else none
      else
        if 0 < monthTotal (despesas txs) m then
          some ⟨"low_savings", "critical", savingsRate txs m, some m, none, none⟩
        else none)

/-- Numerator of the least-squares slope of `y` against `0, 1, …, n-1`; its
sign equals the sign of `np.polyfit(x, y, 1)[0]` (the denominator
`n * Σx² - (Σx)²` is positive for the `n ≥ 3` uses below). -/
def trendSlopeNum (y : List ℚ) : ℚ :=
  (y.length : ℚ) * ((y.enum.map (fun p => (p.1 : ℚ) * p.2)).sum) -
    (((List.range y.length).map (fun i => (i : ℚ))).sum) * y.sum

/-- The percentage change `(last - first) / |first| * 100` of
`_calculate_trend`, `0` when the first value is `0`. -/
def changePct (y : List ℚ) : ℚ :=
  if y.headD 0 = 0 then 0 else (y.getLastD 0 - y.headD 0) / qabs (y.headD 0) * 100

/-- The distinct establishment descriptions of a transaction subset. -/
def establishmentsOf (l : List Tx) : List String := (l.map Tx.descricao).dedup

/-- The positive entries of an establishment's monthly series over all expense
months (the `unstack(fill_value=0)` row filtered by `> 0`). -/
def establishmentNonzeroMonthly (txs : List Tx) (e : String) : List ℚ :=
  ((monthsOf (despesas txs)).map
      (fun m => monthTotal ((despesas txs).filter (fun t => t.descricao == e)) m)).filter
    (fun v => decide (0 < v))

/-- Check 5 of `detect_anomalies` (Nubank shape with more than 20 expenses):
establishments whose spend over at least 3 non-zero months trends up by more
than 50%. -/
def growthAlerts (nb : Bool) (txs : List Tx) : List FinancialAlert :=
  if nb && decide (20 < (despesas txs).length) then
    (establishmentsOf (despesas txs)).filterMap (fun e =>
      if 3 ≤ (establishmentNonzeroMonthly txs e).length then
        if 0 < trendSlopeNum (establishmentNonzeroMonthly txs e) ∧
            50 < changePct (establishmentNonzeroMonthly txs e) then
          some ⟨"establishment_growth", "low", changePct (establishmentNonzeroMonthly txs e),
                none, some e, some "Estabelecimento"⟩
        else none
      else none)
  else []

/-- Embedding of `FinancialAnalyzer.detect_anomalies`: an early empty return
when there are no expenses, otherwise the five checks in source order.  The
`nb` flag is `self.is_nubank_data`. -/
def detect_anomalies (nb : Bool) (txs : List Tx) : List FinancialAlert :=
  if (despesas txs).isEmpty then []
  else
    spikeAlerts txs ++ (if nb then largeAlerts txs else []) ++ concentrationAlerts txs ++
      lowSavingsAlerts txs ++ growthAlerts nb txs

/-- Number of expense transactions of establishment `e` — the entries of
`self.despesas['Descrição'].value_counts()`. -/
def descCount (l : List Tx) (e : String) : Nat :=
  (l.filter (fun t => t.descricao == e)).length

/-- The five most frequent establishments (`value_counts().head(5).index`);
establishments sorted by descending transaction count (pandas leaves the tie
order unspecified, here ties keep an arbitrary fixed order). -/
def topEstablishments (txs : List Tx) : List String :=
  (List.insertionSort (fun a b => descCount (despesas txs) b ≤ descCount (despesas txs) a)
      (establishmentsOf (despesas txs))).take 5

/-- An establishment's monthly expense series (`groupby('Mes_Str').sum()` of
its own rows: one entry per month in which it appears). -/
def establishmentMonthly (txs : List Tx) (e : String) : List ℚ :=
  (monthsOf ((despesas txs).filter (fun t => t.descricao == e))).map
    (fun m => monthTotal ((despesas txs).filter (fun t => t.descricao == e)) m)

/-- The per-establishment forecast of `generate_predictions` (lines 430—440):
for each of the top-5 establishments whose monthly series has at least 2
entries, the plain mean of all its monthly totals (`est_monthly.mean()`). -/
def establishmentPredictions (txs : List Tx) : List (String × ℚ) :=
  (topEstablishments txs).filterMap (fun e =>
    if 2 ≤ (establishmentMonthly txs e).length then
      some (e, qmean (establishmentMonthly txs e))
    else none)

/-- A category's monthly expense series. -/
def categoryMonthly (txs : List Tx) (c : String) : List ℚ :=
  (monthsOf ((despesas txs).filter (fun t => t.categoria == c))).map
    (fun m => monthTotal ((despesas txs).filter (fun t => t.categoria == c)) m)

/-- The per-category forecast of `generate_predictions` (lines 420—427): for
each category with at least 3 months, `cat_monthly.rolling(3).mean().iloc[-1]`. -/
def categoryPredictions (txs : List Tx) : List (String × ℚ) :=
  (categoriesOf (despesas txs)).filterMap (fun c =>
    if 3 ≤ (categoryMonthly txs c).length then
      some (c, rollingLast3 (categoryMonthly txs c))
    else none)

/-- The savings-rate band of component 1 of the health score. -/
def savingsBand (rate : ℚ) : ℚ :=
  if 20 ≤ rate then 30 else if 10 ≤ rate then 20 else if 0 ≤ rate then 10 else 0

/-- Component-1 bands on the coefficient of variation `std/mean` of monthly
expense (`≤0.15 → 30, ≤0.25 → 20, ≤0.35 → 15, else 10`), encoded by comparing
squares (`cv ≤ c ↔ var ≤ c² mean²` when `mean > 0`; a zero mean gives float
`NaN`, which fails every band and lands in the `else`, matching the guard
`0 < mean` here). -/
def cvBand30 (ms : List ℚ) : ℚ :=
  if 0 < qmean ms ∧ 400 * sampleVar ms ≤ 9 * (qmean ms) ^ 2 then 30
  else if 0 < qmean ms ∧ 16 * sampleVar ms ≤ (qmean ms) ^ 2 then 20
  else if 0 < qmean ms ∧ 400 * sampleVar ms ≤ 49 * (qmean ms) ^ 2 then 15
  else 10

/-- Component-3 bands (`≤0.10 → 25, ≤0.20 → 20, ≤0.30 → 15, else 10`),
square-encoded as in `cvBand30`. -/
def cvBand25 (ms : List ℚ) : ℚ :=
  if 0 < qmean ms ∧ 100 * sampleVar ms ≤ (qmean ms) ^ 2 then 25
  else if 0 < qmean ms ∧ 25 * sampleVar ms ≤ (qmean ms) ^ 2 then 20
  else if 0 < qmean ms ∧ 100 * sampleVar ms ≤ 9 * (qmean ms) ^ 2 then 15
  else 10

/-- Component 1 of the health score (30 pts): mean monthly savings rate when
income exists (contribution 0 if there are no expense rows to subtract), else
expense-variability control with a neutral 15 on fewer than 2 months.  The
months without income make the float savings rate `±inf`; in `ℚ` the term is
`0` — either way the banded result lies in `{0,10,20,30}`, which is all the
claims below use. -/
def savingsComponent (txs : List Tx) : ℚ :=
  if (receitas txs).isEmpty then
    if 2 ≤ (monthlyExpenses txs).length then cvBand30 (spikeVals txs) else 15
  else
    if (despesas txs).isEmpty then 0
    else savingsBand (qmean ((monthsOf txs).map (savingsRate txs)))

/-- The category expense shares feeding the Gini index. -/
def categoryShares (txs : List Tx) : List ℚ :=
  (categoriesOf (despesas txs)).map
    (fun c => categoryTotal (despesas txs) c / ((despesas txs).map valorAbsoluto).sum)

/-- The Gini index of the category share distribution. -/
def giniOf (txs : List Tx) : ℚ := giniQ (categoryShares txs)

/-- Component 2 of the health score (20 pts): `max(0, 20 * (1 - gini))`. -/
def diversificationScore (txs : List Tx) : ℚ := qmax 0 (20 * (1 - giniOf txs))

/-- Component 3 of the health score (25 pts), contributing 0 when fewer than
3 months of expenses exist. -/
def stabilityComponent (txs : List Tx) : ℚ :=
  if 3 ≤ (monthlyExpenses txs).length then cvBand25 (spikeVals txs) else 0

/-- `len(large_transactions) / len(self.despesas)`: the crash site for an
expense-free input (modelled by the `none` branch of the caller). -/
def largeTransactionRatio (txs : List Tx) : ℚ :=
  (((despesas txs).filter
      (fun t => decide (quantile95 ((despesas txs).map valorAbsoluto) < valorAbsoluto t))).length : ℚ) /
    ((despesas txs).length : ℚ)

/-- Component 4 of the health score (25 pts). -/
def largeControlComponent (txs : List Tx) : ℚ :=
  if largeTransactionRatio txs ≤ 1 / 50 then 25
  else if largeTransactionRatio txs ≤ 1 / 20 then 20
  else if largeTransactionRatio txs ≤ 1 / 10 then 15
  else 10

/-- Result of `calculate_financial_health_score`: the final 0—100 score plus
the accumulators `total_score` and `max_score`. -/
structure HealthScore where
  score : ℚ
  totalScore : ℚ
  maxScore : ℚ
deriving Repr, DecidableEq

/-- Embedding of `FinancialAnalyzer.calculate_financial_health_score`.  An
empty frame returns score 0 with no accumulators; a non-empty frame with no
expense rows raises `ZeroDivisionError` at component 4
(`len(large_transactions) / len(self.despesas)`), modelled as `none`.
Otherwise each of the four components adds its maximum (30, 20, 25, 25) to
`max_score` unconditionally and the final score is
`total_score / max_score * 100`. -/
def calculate_financial_health_score (txs : List Tx) : Option HealthScore :=
  if txs.isEmpty then some ⟨0, 0, 0⟩
  else if (despesas txs).isEmpty then none
  else
    some ⟨(savingsComponent txs + diversificationScore txs + stabilityComponent txs +
            largeControlComponent txs) / (30 + 20 + 25 + 25) * 100,
          savingsComponent txs + diversificationScore txs + stabilityComponent txs +
            largeControlComponent txs,
          30 + 20 + 25 + 25⟩

/-- Raw row as seen by `DataProcessor.process_data`: the parse results of the
`Data` column (`pd.to_datetime` **without** `errors='coerce'`, so a `none`
raises) and of the `Valor` column (`pd.to_numeric(..., errors='coerce')`, so a
`none` becomes `NaN` and is kept), plus the `ID` used for deduplication. -/
structure RawRow where
  dataRaw : Option Nat
  valorRaw : Option ℚ
  id : Nat
deriving Repr, DecidableEq

/-- Output row of `DataProcessor.process_data`; `valor = none` models a `NaN`
amount that the function keeps (it never drops rows). -/
structure ProcRow where
  data : Nat
  valor : Option ℚ
  tipo : String
  valorAbs : Option ℚ
  id : Nat
deriving Repr, DecidableEq

/-- Keep-first deduplication by `ID` (`drop_duplicates(subset=['ID'],
keep='first')`). -/
def dedupByIdAux (seen : List Nat) : List ProcRow → List ProcRow
  | [] => []
  | r :: rest =>
    if seen.contains r.id then dedupByIdAux seen rest
    else r :: dedupByIdAux (r.id :: seen) rest

/-- Keep-first deduplication entry point. -/
def dedupById (l : List ProcRow) : List ProcRow := dedupByIdAux [] l

/-- Embedding of `DataProcessor.process_data`: `pd.to_datetime(df['Data'])`
with default `errors='raise'` aborts the whole batch on any unparseable date
(the `Option` bind over the list); amounts are coerced and a failed parse is
retained as `NaN` (`none`) — `NaN > 0` is false, so its `Tipo` is `'Despesa'`
and its `Valor_Absoluto` stays `NaN`; finally rows are deduplicated by `ID`. -/
def process_data (rows : List RawRow) : Option (List ProcRow) :=
  Option.map dedupById
    (rows.mapM (fun r : RawRow =>
      Option.map (fun d : Nat =>
        ({ data := d, valor := r.valorRaw,
           tipo := if (match r.valorRaw with | some v => decide (0 < v) | none => false)
                   then "Receita" else "Despesa",
           valorAbs := r.valorRaw.map (fun v => qabs v), id := r.id } : ProcRow))
        r.dataRaw))

/-- The closed category enumeration of `FinancialCategorizer`. -/
def categoriesList : List String :=
  ["Alimentação", "Receitas", "Saúde", "Mercado", "Educação", "Compras", "Transporte",
   "Investimento", "Transferências para terceiros", "Telefone", "Moradia",
   "Entretenimento", "Lazer", "Outros"]

/-- The ordered keyword table of `_rule_based_categorization` (a Python dict
iterated in insertion order). -/
def ruleTable : List (String × List String) :=
  [("Receitas", ["salario", "pix - recebido", "transferencia recebida", "receita"]),
   ("Moradia", ["ferreira imoveis", "aluguel", "condominio", "iptu", "luz", "energia"]),
   ("Alimentação", ["restaurante", "lanchonete", "padaria", "açougue", "parrilla", "burguer", "pizza"]),
   ("Mercado", ["supermercado", "mercado", "atacadao", "bistek", "zaffari"]),
   ("Transporte", ["posto", "combustivel", "uber", "taxi", "onibus", "metro", "estacionamento"]),
   ("Saúde", ["farmacia", "drogaria", "panvel", "unimed", "medico", "hospital"]),
   ("Educação", ["escola", "universidade", "curso", "mensalidade", "livro", "material"]),
   ("Telefone", ["claro", "tim", "vivo", "oi", "telefone", "celular"]),
   ("Compras", ["loja", "magazine", "shopping", "renner", "mercadolivre"]),
   ("Entretenimento", ["cinema", "teatro", "show", "netflix", "spotify"]),
   ("Transferências para terceiros", ["pix - enviado", "ted", "transferencia"])]

/-- Substring test on character lists (`keyword in desc_lower`). -/
def containsSub (pat : List Char) : List Char → Bool
  | [] => pat.isEmpty
  | c :: rest => pat.isPrefixOf (c :: rest) || containsSub pat rest

/-- Embedding of `_rule_based_categorization`: the first category whose
keyword list has a substring match against the lower-cased description wins;
otherwise `'Outros'`. -/
def rule_based_categorization (description : String) : String :=
  match ruleTable.find? (fun p => p.2.any (fun kw => containsSub kw.toList description.toLower.toList)) with
  | some p => p.1
  | none => "Outros"

/-- Round half to even, the rounding used by Python's `f"{x:.0f}"` format. -/
def bankersRound (q : ℚ) : ℤ :=
  if q - ⌊q⌋ < 1 / 2 then ⌊q⌋
  else if 1 / 2 < q - ⌊q⌋ then ⌊q⌋ + 1
  else if ⌊q⌋ % 2 = 0 then ⌊q⌋ else ⌊q⌋ + 1

/-- Embedding of `_create_cache_key`: lower-cased, stripped description,
underscore, absolute value formatted with zero decimals. -/
def create_cache_key (description : String) (value : ℚ) : String :=
  description.toLower.trim ++ "_" ++ toString (bankersRound (qabs value))

/-- The categorization cache, keyed by `create_cache_key`.  New keys are
inserted at the head; `categorize_single` only inserts keys it just failed to
find, so the association-list representation matches the Python dict. -/
def Cache : Type := List (String × String)

/-- A `FinancialCategorizer`: its category enumeration and the optional
classifier chain.  `chain = none` models an unconfigured provider; the chain
function returns `none` when the external call raises and `some text`
otherwise.  A single call is deterministic once its result is fixed, which is
all the cache properties below need — a second call never reaches the chain. -/
structure FinancialCategorizer where
  categories : List String
  chain : Option (String → ℚ → Option String)

/-- Embedding of `FinancialCategorizer.categorize_single`.  Returns the
category, the updated cache and whether the external classifier was invoked.
Source order: cache lookup first; otherwise rule fallback (no chain), or the
chain with its result stripped and validated against the enumeration, falling
back to rules on an invalid category or an exception; the resolved category is
stored in the cache before returning. -/
def categorize_single (cz : FinancialCategorizer) (cache : Cache) (description : String)
    (value : ℚ) : String × Cache × Bool :=
  match List.lookup (create_cache_key description value) cache with
  | some c => (c, cache, false)
  | none =>
    match cz.chain with
    | none =>
      (rule_based_categorization description,
       (create_cache_key description value, rule_based_categorization description) :: cache,
       false)
    | some invoke =>
      match invoke description value with
      | none =>
        (rule_based_categorization description,
         (create_cache_key description value, rule_based_categorization description) :: cache,
         true)
      | some result =>
        if cz.categories.contains result.trim then
          (result.trim, (create_cache_key description value, result.trim) :: cache, true)
        else
          (rule_based_categorization description,
           (create_cache_key description value, rule_based_categorization description) :: cache,
           true)

/-- A sequence of `categorize_single` calls (each with its own categorizer
configuration, so later runs may have a working classifier): returns the final
cache and, per call, the cache key it used and whether it invoked the
classifier. -/
def runCalls : List (FinancialCategorizer × String × ℚ) → Cache → Cache × List (String × Bool)
  | [], cache => (cache, [])
  | (cz, d, v) :: rest, cache =>
    ((runCalls rest (categorize_single cz cache d v).2.1).1,
     (create_cache_key d v, (categorize_single cz cache d v).2.2) ::
       (runCalls rest (categorize_single cz cache d v).2.1).2)

/-- Whether an alert list contains a high-severity monthly spike alert for
month `m`. -/
def hasSpikeAlert (as : List FinancialAlert) (m : Nat) : Bool :=
  as.any (fun a => decide (a.type = "expense_spike" ∧ a.severity = "high" ∧ a.date = some m))

/-- Concrete scenario of §8 of the spec: three months with incomes
`[1000, 1000, 1000]` and expenses `[900, 1100, 1000]`, already prepared. -/
def c5txs : List Tx :=
  [⟨1, "sal", 1000, "Outros"⟩, ⟨1, "gasto", -900, "Outros"⟩,
   ⟨2, "sal", 1000, "Outros"⟩, ⟨2, "gasto", -1100, "Outros"⟩,
   ⟨3, "sal", 1000, "Outros"⟩, ⟨3, "gasto", -1000, "Outros"⟩]

/-- Traditional-shape expense set with one transaction far above the 95th
percentile of absolute amounts (`quantile95 = 80.2 < 100`). -/
def c3txs : List Tx :=
  [⟨1, "a", -1, "Outros"⟩, ⟨1, "b", -1, "Outros"⟩, ⟨1, "c", -1, "Outros"⟩,
   ⟨1, "d", -1, "Outros"⟩, ⟨1, "big", -100, "Outros"⟩]

/-- A single merchant with four monthly totals `[10, 1, 2, 3]`. -/
def c4txs : List Tx :=
  [⟨1, "m", -10, "Outros"⟩, ⟨2, "m", -1, "Outros"⟩, ⟨3, "m", -2, "Outros"⟩,
   ⟨4, "m", -3, "Outros"⟩]

/-- Two-category expense distribution with shares `(0.9, 0.1)` — Gini `0.4`. -/
def c8A : List Tx := [⟨1, "a", -9, "c1"⟩, ⟨1, "b", -1, "c2"⟩]

/-- Two-category expense distribution with shares `(0.5, 0.5)` — Gini `0`. -/
def c8B : List Tx := [⟨1, "a", -5, "c1"⟩, ⟨1, "b", -5, "c2"⟩]

/-- Four expense months with totals `[0, 0, 0, 4]`: mean `1`, sample variance
`4`, so the fourth month sits exactly at `mean + 1.5 * std = 4`. -/
def w6txs : List Tx :=
  [⟨1, "a", 0, "Outros"⟩, ⟨2, "a", 0, "Outros"⟩, ⟨3, "a", 0, "Outros"⟩,
   ⟨4, "a", -4, "Outros"⟩]

/-- A cache hit returns the cached category, leaves the cache unchanged and
does not invoke the classifier. -/
lemma categorize_single_hit (cz : FinancialCategorizer) (cache : Cache) (d : String) (v : ℚ)
    (c : String) (h : List.lookup (create_cache_key d v) cache = some c) :
    categorize_single cz cache d v = (c, cache, false) := by
  unfold categorize_single
  rw [h]

/-- A cache miss stores the resolved category under the computed key at the
head of the cache. -/
lemma categorize_single_miss (cz : FinancialCategorizer) (cache : Cache) (d : String) (v : ℚ)
    (h : List.lookup (create_cache_key d v) cache = none) :
    ∃ c b, categorize_single cz cache d v = (c, (create_cache_key d v, c) :: cache, b) := by
  unfold categorize_single
  rw [h]
  rcases cz with ⟨cats, _ | invoke⟩
  · exact ⟨rule_based_categorization d, false, rfl⟩
  · dsimp only
    rcases hres : invoke d v with _ | result
    · exact ⟨rule_based_categorization d, true, rfl⟩
    · by_cases hc : cats.contains result.trim = true
      · refine ⟨result.trim, true, ?_⟩
        dsimp only
        rw [if_pos hc]
      · refine ⟨rule_based_categorization d, true, ?_⟩
        dsimp only
        rw [if_neg hc]

/-- Bindings already in the cache survive any `categorize_single` call. -/
lemma categorize_single_preserves (cz : FinancialCategorizer) (cache : Cache) (d : String)
    (v : ℚ) (k c : String) (h : List.lookup k cache = some c) :
    List.lookup k (categorize_single cz cache d v).2.1 = some c := by
  cases hl : List.lookup (create_cache_key d v) cache with
  | some c0 => rw [categorize_single_hit cz cache d v c0 hl]; exact h
  | none =>
    obtain ⟨c1, b1, heq⟩ := categorize_single_miss cz cache d v hl
    rw [heq]
    have hk : (k == create_cache_key d v) = false := by
      rcases hbe : k == create_cache_key d v with _ | _
      · rfl
      · exfalso
        rw [eq_of_beq hbe] at h
        rw [h] at hl
        cases hl
    simp [List.lookup, hk, h]

/-- A call whose key is already cached does not invoke the classifier. -/
lemma categorize_single_cached_no_invoke (cz : FinancialCategorizer) (cache : Cache)
    (d : String) (v : ℚ) (c : String)
    (h : List.lookup (create_cache_key d v) cache = some c) :
    (categorize_single cz cache d v).2.2 = false := by
  rw [categorize_single_hit cz cache d v c h]

/-- C7: calling `categorize_single` twice with the same description and value
(hence the same description/amount-bucket cache key) from any starting cache
returns the same category both times, and the second call does not invoke the
external classifier — the first call left the result in the cache. -/
theorem c7_theorem (cz : FinancialCategorizer) (cache : Cache) (d : String) (v : ℚ) :
    (categorize_single cz (categorize_single cz cache d v).2.1 d v).1 =
        (categorize_single cz cache d v).1 ∧
      (categorize_single cz (categorize_single cz cache d v).2.1 d v).2.2 = false := by
  cases hl : List.lookup (create_cache_key d v) cache with
  | some c =>
    rw [categorize_single_hit cz cache d v c hl]
    rw [categorize_single_hit cz cache d v c hl]
    exact ⟨rfl, rfl⟩
  | none =>
    obtain ⟨c1, b1, heq⟩ := categorize_single_miss cz cache d v hl
    rw [heq]
    have hself : List.lookup (create_cache_key d v)
        ((create_cache_key d v, c1) :: cache) = some c1 := by
      simp [List.lookup]
    rw [categorize_single_hit cz ((create_cache_key d v, c1) :: cache) d v c1 hself]
    exact ⟨rfl, rfl⟩

/-- C9: cache entries are write-once.  If a key is bound in the cache, then
after any sequence of later `categorize_single` calls — each with its own
configuration, so in particular later calls may carry a working classifier —
the key is still bound to the same category, and no call in the sequence whose
key equals it ever invoked the external classifier. -/
theorem c9_theorem (calls : List (FinancialCategorizer × String × ℚ)) (cache : Cache)
    (k c : String) (h : List.lookup k cache = some c) :
    List.lookup k (runCalls calls cache).1 = some c ∧
      ∀ p ∈ (runCalls calls cache).2, p.1 = k → p.2 = false := by
  induction calls generalizing cache with
  | nil => exact ⟨h, by simp [runCalls]⟩
  | cons hd tl ih =>
    obtain ⟨cz, d, v⟩ := hd
    have hpres := categorize_single_preserves cz cache d v k c h
    obtain ⟨ih1, ih2⟩ := ih ((categorize_single cz cache d v).2.1) hpres
    constructor
    · exact ih1
    · intro p hp hpk
      rcases List.mem_cons.mp hp with hfirst | hrest
      · subst hfirst
        simp only at hpk ⊢
        rw [← hpk] at h
        exact categorize_single_cached_no_invoke cz cache d v c h
      · exact ih2 p hrest hpk

/-- C9 witness: a key cached as `Outros` by an earlier rule-based fallback run
survives a later call for the same key with a working classifier that would
return `Compras`; the call is answered from the cache without invoking the
classifier. -/
theorem c9_witness :
    List.lookup "abc_10" [("abc_10", "Outros")] = some "Outros" ∧
      (List.lookup "abc_10"
          (runCalls [(⟨categoriesList, some (fun _ _ => some "Compras")⟩, "ABC ", -10)]
            [("abc_10", "Outros")]).1 = some "Outros" ∧
        ∀ p ∈ (runCalls [(⟨categoriesList, some (fun _ _ => some "Compras")⟩, "ABC ", -10)]
            [("abc_10", "Outros")]).2, p.1 = "abc_10" → p.2 = false) :=
  ⟨by decide,
   c9_theorem [(⟨categoriesList, some (fun _ _ => some "Compras")⟩, "ABC ", -10)]
     [("abc_10", "Outros")] "abc_10" "Outros" (by decide)⟩

/-- The prepared list retains exactly the rows whose date and amount both
parsed. -/
lemma prepare_data_length (rows : List RawTx) :
    (prepare_data rows).length =
      (rows.filter (fun r => r.dateRaw.isSome && r.amountRaw.isSome)).length := by
  induction rows with
  | nil => rfl
  | cons r rest ih =>
    rcases hd : r.dateRaw with _ | d <;> rcases ha : r.amountRaw with _ | v <;>
      simp [prepare_data, List.filterMap_cons, List.filter_cons, hd, ha] at ih ⊢ <;>
      exact ih

/-- C2 counterexample: in `DataProcessor.process_data` a row whose amount
fails numeric parsing is retained with a null (`NaN`) amount rather than
dropped, and a row whose date fails parsing aborts the whole batch rather
than being dropped — both contrary to the claim. -/
theorem c2_counterexample :
    process_data [⟨some 1, none, 0⟩] =
        some [⟨1, none, "Despesa", none, 0⟩] ∧
      process_data [⟨none, some 5, 0⟩] = none := by
  constructor
  · rfl
  · rfl

/-- C2 (amended): the claim holds for `FinancialAnalyzer._prepare_data` —
every prepared transaction comes from a row whose date and amount both parsed
(no unparseable record is retained or defaulted), and exactly the fully
parseable rows survive; `DataProcessor.process_data`, however, aborts on an
unparseable date and keeps rows with unparseable amounts. -/
theorem c2_theorem (rows : List RawTx) (t : Tx) (h : t ∈ prepare_data rows) :
    (∃ r ∈ rows, r.dateRaw = some t.month ∧ r.amountRaw = some t.valor) ∧
      (prepare_data rows).length =
        (rows.filter (fun r => r.dateRaw.isSome && r.amountRaw.isSome)).length := by
  refine ⟨?_, prepare_data_length rows⟩
  rcases List.mem_filterMap.mp h with ⟨r, hr, hf⟩
  refine ⟨r, hr, ?_⟩
  rcases hd : r.dateRaw with _ | d <;> rcases ha : r.amountRaw with _ | v <;>
    rw [hd, ha] at hf <;> simp at hf
  subst hf
  exact ⟨rfl, rfl⟩

/-- C2 witness: a concrete prepared transaction produced from a fully
parseable row. -/
theorem c2_witness :
    (⟨7, "x", -3, "Outros"⟩ : Tx) ∈ prepare_data [⟨some 7, some "x", some (-3), none⟩] ∧
      ((∃ r ∈ [(⟨some 7, some "x", some (-3), none⟩ : RawTx)],
          r.dateRaw = some (7 : Nat) ∧ r.amountRaw = some (-3 : ℚ)) ∧
        (prepare_data [⟨some 7, some "x", some (-3), none⟩]).length =
          ([(⟨some 7, some "x", some (-3), none⟩ : RawTx)].filter
              (fun r => r.dateRaw.isSome && r.amountRaw.isSome)).length) :=
  ⟨by decide, c2_theorem [⟨some 7, some "x", some (-3), none⟩] ⟨7, "x", -3, "Outros"⟩ (by decide)⟩

/-- C5 counterexample: on the §8 scenario (incomes `[1000,1000,1000]`,
expenses `[900,1100,1000]`) the third month — savings rate `0% < 10%` — does
receive a low-savings alert (severity `medium`), contradicting the claim that
no low-savings alert is emitted for the third month. -/
theorem c5_counterexample :
    (detect_anomalies false c5txs).any
      (fun a => a.type == "low_savings" && a.date == some 3) = true := by
  norm_num [detect_anomalies, spikeAlerts, largeAlerts, concentrationAlerts,
    lowSavingsAlerts, growthAlerts, monthlyExpenses, spikeVals, monthsOf, monthTotal,
    receitas, despesas, isReceita, valorAbsoluto, qabs, savingsRate, categoriesOf,
    categoryTotal, spikeCond, qmean, sampleVar, quantile95, q95idx, List.dedup,
    List.insertionSort, List.orderedInsert, List.pwFilter, List.filterMap, c5txs]

/-- C5 (amended): on the scenario the low-savings alerts are exactly one
`critical` alert for the second month (rate `-10%`) and one `medium` alert for
the third month (rate `0%`); the first month (rate exactly `10%`, not below
the threshold) gets none. -/
theorem c5_theorem :
    (detect_anomalies false c5txs).filter (fun a => a.type == "low_savings") =
      [⟨"low_savings", "critical", -10, some 2, none, none⟩,
       ⟨"low_savings", "medium", 0, some 3, none, none⟩] := by
  norm_num [detect_anomalies, spikeAlerts, largeAlerts, concentrationAlerts,
    lowSavingsAlerts, growthAlerts, monthlyExpenses, spikeVals, monthsOf, monthTotal,
    receitas, despesas, isReceita, valorAbsoluto, qabs, savingsRate, categoriesOf,
    categoryTotal, spikeCond, qmean, sampleVar, quantile95, q95idx, List.dedup,
    List.insertionSort, List.orderedInsert, List.pwFilter, List.filterMap, c5txs]
  decide

/-- C1 counterexample: a single income transaction (amount `+100`) survives
preparation, but `calculate_financial_health_score` then divides by the number
of expense rows — zero — and raises (`ZeroDivisionError`), modelled by `none`;
it neither completes nor returns a score. -/
theorem c1_counterexample :
    calculate_financial_health_score (prepare_data [⟨some 1, some "pix", some 100, none⟩]) =
      none := by
  norm_num [calculate_financial_health_score, savingsComponent, savingsBand, cvBand30, cvBand25,
    diversificationScore, qmax, giniOf, giniQ, giniNum, categoryShares, stabilityComponent,
    largeTransactionRatio, largeControlComponent, prepare_data, Finset.sum_range_succ,
    Finset.sum_range_zero, despesas, isReceita, List.filterMap]

/-- C10 counterexample: a non-empty, income-only transaction set makes
`calculate_financial_health_score` raise at component 4 (division by the zero
count of expense rows), so no denominator of 100 is ever produced. -/
theorem c10_counterexample :
    calculate_financial_health_score
        [⟨1, "salario", 50, "Outros"⟩, ⟨2, "pix", 60, "Outros"⟩] = none := by
  norm_num [calculate_financial_health_score, savingsComponent, savingsBand, cvBand30, cvBand25,
    diversificationScore, qmax, giniOf, giniQ, giniNum, categoryShares, stabilityComponent,
    largeTransactionRatio, largeControlComponent, prepare_data, Finset.sum_range_succ,
    Finset.sum_range_zero, despesas, isReceita, List.filterMap]

/-- C4 counterexample: a merchant with four monthly totals `[10, 1, 2, 3]`
(four non-zero months, so the claim includes it) is forecast at the plain mean
`4` of all its months, not at the 3-month moving average `2` used for the
overall and per-category forecasts. -/
theorem c4_counterexample :
    establishmentPredictions c4txs = [("m", 4)] ∧
      rollingLast3 (establishmentMonthly c4txs "m") = 2 ∧ ((4 : ℚ) ≠ 2) := by
  refine ⟨?_, ?_, by norm_num⟩
  · norm_num [establishmentPredictions, topEstablishments, establishmentsOf, descCount,
      establishmentMonthly, qmean, c4txs, despesas, isReceita, valorAbsoluto, qabs, monthsOf,
      monthTotal, List.dedup, List.insertionSort, List.orderedInsert, List.pwFilter,
      List.filterMap]
  · norm_num [establishmentMonthly, rollingLast3, c4txs, despesas, isReceita, valorAbsoluto,
      qabs, monthsOf, monthTotal, List.dedup, List.insertionSort, List.orderedInsert,
      List.pwFilter]

/-- C4 (amended): the per-merchant forecast map of `generate_predictions`
contains a pair `(e, v)` exactly when `e` is one of the five most frequent
merchants, its monthly series has at least 2 entries, and `v` is the plain
arithmetic mean of all of that merchant's monthly totals — not the 3-month
moving average used for the overall and per-category forecasts, and with
threshold 2 months rather than 3 non-zero months. -/
theorem c4_theorem (txs : List Tx) (e : String) (v : ℚ) :
    (e, v) ∈ establishmentPredictions txs ↔
      e ∈ topEstablishments txs ∧ 2 ≤ (establishmentMonthly txs e).length ∧
        v = qmean (establishmentMonthly txs e) := by
  unfold establishmentPredictions
  rw [List.mem_filterMap]
  constructor
  · rintro ⟨a, ha, hf⟩
    by_cases h2 : 2 ≤ (establishmentMonthly txs a).length
    · rw [if_pos h2] at hf
      have hpair := Option.some.inj hf
      have hae : a = e := congrArg Prod.fst hpair
      subst hae
      exact ⟨ha, h2, (congrArg Prod.snd hpair).symm⟩
    · rw [if_neg h2] at hf
      cases hf
  · rintro ⟨he, h2, rfl⟩
    exact ⟨e, he, if_pos h2⟩

/-- C3 (amended): on Nubank-shaped data, every expense transaction whose
absolute amount is strictly above the 95th percentile of absolute expense
amounts receives a `medium` large-transaction alert naming it; the check is
skipped entirely for traditional-shape data (see the counterexample). -/
theorem c3_theorem (txs : List Tx) (t : Tx) (ht : t ∈ despesas txs)
    (hq : quantile95 ((despesas txs).map valorAbsoluto) < valorAbsoluto t) :
    ∃ a ∈ detect_anomalies true txs, a.type = "large_transaction" ∧
      a.severity = "medium" ∧ a.value = valorAbsoluto t ∧ a.descricao = some t.descricao := by
  have hne : ¬ (despesas txs).isEmpty = true := by
    cases hD : despesas txs with
    | nil => rw [hD] at ht; cases ht
    | cons a l => simp [hD]
  refine ⟨⟨"large_transaction", "medium", valorAbsoluto t, some t.month,
           some t.descricao, some t.categoria⟩, ?_, rfl, rfl, rfl, rfl⟩
  unfold detect_anomalies
  rw [if_neg hne]
  have hmem : (⟨"large_transaction", "medium", valorAbsoluto t, some t.month,
      some t.descricao, some t.categoria⟩ : FinancialAlert) ∈ largeAlerts txs :=
    List.mem_map.mpr ⟨t, List.mem_filter.mpr ⟨ht, decide_eq_true hq⟩, rfl⟩
  simp only [if_true]
  refine List.mem_append.mpr (Or.inl ?_)
  refine List.mem_append.mpr (Or.inl ?_)
  refine List.mem_append.mpr (Or.inl ?_)
  exact List.mem_append.mpr (Or.inr hmem)

/-- C3 counterexample: the same expense set (one expense at `100`, strictly
above the 95th percentile `80.2`) run as traditional-shape data produces no
large-transaction alert at all — the check is gated on the Nubank shape. -/
theorem c3_counterexample :
    quantile95 ((despesas c3txs).map valorAbsoluto) < valorAbsoluto ⟨1, "big", -100, "Outros"⟩ ∧
      (detect_anomalies false c3txs).filter (fun a => a.type == "large_transaction") = [] := by
  constructor
  · norm_num [quantile95, q95idx, c3txs, despesas, isReceita, valorAbsoluto, qabs,
      List.insertionSort, List.orderedInsert]
  · norm_num [detect_anomalies, spikeAlerts, largeAlerts, concentrationAlerts,
      lowSavingsAlerts, growthAlerts, monthlyExpenses, spikeVals, monthsOf, monthTotal,
      receitas, despesas, isReceita, valorAbsoluto, qabs, savingsRate, categoriesOf,
      categoryTotal, spikeCond, qmean, sampleVar, quantile95, q95idx, List.dedup,
      List.insertionSort, List.orderedInsert, List.pwFilter, List.filterMap, c3txs]
    decide

/-- C3 witness: on the same data in Nubank shape the `100` expense does get
its `medium` large-transaction alert. -/
theorem c3_witness :
    (⟨1, "big", -100, "Outros"⟩ : Tx) ∈ despesas c3txs ∧
      quantile95 ((despesas c3txs).map valorAbsoluto) <
        valorAbsoluto ⟨1, "big", -100, "Outros"⟩ ∧
      ∃ a ∈ detect_anomalies true c3txs, a.type = "large_transaction" ∧
        a.severity = "medium" ∧ a.value = valorAbsoluto ⟨1, "big", -100, "Outros"⟩ ∧
        a.descricao = some (⟨1, "big", -100, "Outros"⟩ : Tx).descricao := by
  have h1 : (⟨1, "big", -100, "Outros"⟩ : Tx) ∈ despesas c3txs := by
    norm_num [despesas, c3txs, isReceita]
  have h2 : quantile95 ((despesas c3txs).map valorAbsoluto) <
      valorAbsoluto ⟨1, "big", -100, "Outros"⟩ := by
    norm_num [quantile95, q95idx, c3txs, despesas, isReceita, valorAbsoluto, qabs,
      List.insertionSort, List.orderedInsert]
  exact ⟨h1, h2, c3_theorem c3txs ⟨1, "big", -100, "Outros"⟩ h1 h2⟩

/-- The hand-rolled maximum agrees with the order-theoretic one. -/
lemma qmax_eq_max (a b : ℚ) : qmax a b = max a b := by
  unfold qmax
  rw [max_def]

/-- The hand-rolled absolute value agrees with `|·|`. -/
lemma qabs_eq_abs (q : ℚ) : qabs q = |q| := by
  unfold qabs
  rcases lt_trichotomy q 0 with h | h | h
  · rw [if_pos h, abs_of_neg h]
  · subst h; norm_num
  · rw [if_neg (not_lt.mpr h.le), abs_of_pos h]

/-- The hand-rolled absolute value is non-negative. -/
lemma qabs_nonneg (q : ℚ) : 0 ≤ qabs q := by
  rw [qabs_eq_abs]; exact abs_nonneg q

/-- C8: the diversification sub-score is antitone in the Gini coefficient of
the category expense-share distribution — a more concentrated distribution
(higher Gini) never scores higher — and the sub-score is exactly
`max(0, 20 * (1 - Gini))`. -/
theorem c8_theorem (A B : List Tx) (h : giniOf B ≤ giniOf A) :
    diversificationScore A ≤ diversificationScore B ∧
      diversificationScore A = max 0 (20 * (1 - giniOf A)) := by
  constructor
  · unfold diversificationScore
    rw [qmax_eq_max, qmax_eq_max]
    exact max_le_max le_rfl (by linarith)
  · unfold diversificationScore
    exact qmax_eq_max _ _

/-- C8 witness: shares `(0.9, 0.1)` have Gini `0.4` and score `12`; shares
`(0.5, 0.5)` have Gini `0` and score `20`. -/
theorem c8_witness :
    giniOf c8B ≤ giniOf c8A ∧
      (diversificationScore c8A ≤ diversificationScore c8B ∧
        diversificationScore c8A = max 0 (20 * (1 - giniOf c8A))) := by
  have h : giniOf c8B ≤ giniOf c8A := by
    norm_num +decide [giniOf, giniQ, giniNum, categoryShares, categoriesOf, categoryTotal, c8A, c8B,
      despesas, isReceita, valorAbsoluto, qabs, List.dedup, List.pwFilter,
      List.insertionSort, List.orderedInsert, List.filter_cons, List.filter_nil,
      Finset.sum_range_succ, Finset.sum_range_zero]
  exact ⟨h, c8_theorem c8A c8B h⟩

/-- Positional access of a list at an in-range index via `getD`. -/
lemma getD_eq_get (s : List ℚ) {i : ℕ} (h : i < s.length) : s.getD i 0 = s.get ⟨i, h⟩ := by
  simp [List.getD_eq_getElem?_getD, List.getElem?_eq_getElem h, List.get_eq_getElem]

/-- In an ascending list, entries are monotone in the index. -/
lemma sorted_getD_mono (s : List ℚ) (hs : List.Sorted (· ≤ ·) s) {i j : ℕ}
    (hij : i ≤ j) (hj : j < s.length) : s.getD i 0 ≤ s.getD j 0 := by
  have hi : i < s.length := Nat.lt_of_le_of_lt hij hj
  rw [getD_eq_get s hi, getD_eq_get s hj]
  rcases eq_or_lt_of_le hij with rfl | hlt
  · exact le_refl _
  · exact hs.rel_get_of_lt (Fin.mk_lt_mk.mpr hlt)

/-- The Gini numerator `(2*arange(1,n+1) - n - 1) @ s` is non-negative on any
ascending list: pairing index `i` with `n-1-i` turns the sum into a sum of
products of equal signs. -/
lemma giniNum_nonneg (s : List ℚ) (hs : List.Sorted (· ≤ ·) s) : 0 ≤ giniNum s := by
  unfold giniNum
  set n := s.length with hn
  have key : ∀ i ∈ Finset.range n,
      (0 : ℚ) ≤ (2 * ((i : ℚ) + 1) - n - 1) * s.getD i 0 +
        (2 * ((↑(n - 1 - i) : ℚ) + 1) - n - 1) * s.getD (n - 1 - i) 0 := by
    intro i hi
    have hi' : i < n := Finset.mem_range.mp hi
    have hle : i ≤ n - 1 := by omega
    have hcast : ((n - 1 - i : ℕ) : ℚ) = (n : ℚ) - 1 - i := by
      have h1 : (1 : ℕ) ≤ n := by omega
      push_cast [Nat.cast_sub hle, Nat.cast_sub h1]
      ring
    have hco : (2 * ((↑(n - 1 - i) : ℚ) + 1) - n - 1) = -(2 * ((i : ℚ) + 1) - n - 1) := by
      rw [hcast]; ring
    rw [hco]
    rcases le_or_lt (2 * i + 1) n with hcase | hcase
    · have hij : i ≤ n - 1 - i := by omega
      have hsle : s.getD i 0 ≤ s.getD (n - 1 - i) 0 :=
        sorted_getD_mono s hs hij (by omega)
      have hcle : (2 * ((i : ℚ) + 1) - n - 1) ≤ 0 := by
        have hq : ((2 * i + 1 : ℕ) : ℚ) ≤ (n : ℚ) := Nat.cast_le.mpr hcase
        push_cast at hq
        linarith
      nlinarith
    · have hij : n - 1 - i ≤ i := by omega
      have hsle : s.getD (n - 1 - i) 0 ≤ s.getD i 0 := sorted_getD_mono s hs hij hi'
      have hcge : 0 ≤ (2 * ((i : ℚ) + 1) - n - 1) := by
        have hq : ((n : ℚ) + 1) ≤ ((2 * i + 1 : ℕ) : ℚ) := by
          have : n + 1 ≤ 2 * i + 1 := by omega
          exact_mod_cast Nat.cast_le.mpr this
        push_cast at hq
        linarith
      nlinarith
  have h2 : (0 : ℚ) ≤ ∑ i in Finset.range n,
      ((2 * ((i : ℚ) + 1) - n - 1) * s.getD i 0 +
        (2 * ((↑(n - 1 - i) : ℚ) + 1) - n - 1) * s.getD (n - 1 - i) 0) :=
    Finset.sum_nonneg key
  rw [Finset.sum_add_distrib] at h2
  rw [Finset.sum_range_reflect (fun i => (2 * ((i : ℚ) + 1) - n - 1) * s.getD i 0) n] at h2
  linarith

/-- The Gini index of a list of non-negative shares is non-negative. -/
lemma giniQ_nonneg (p : List ℚ) (hp : ∀ x ∈ p, 0 ≤ x) : 0 ≤ giniQ p := by
  unfold giniQ
  apply div_nonneg
  · exact giniNum_nonneg _ (List.sorted_insertionSort _ _)
  · apply mul_nonneg (Nat.cast_nonneg _)
    apply List.sum_nonneg
    intro x hx
    exact hp x ((List.perm_insertionSort _ p).mem_iff.mp hx)

/-- Category expense shares are non-negative. -/
lemma categoryShares_nonneg (txs : List Tx) : ∀ x ∈ categoryShares txs, 0 ≤ x := by
  intro x hx
  unfold categoryShares at hx
  rcases List.mem_map.mp hx with ⟨c, _, rfl⟩
  apply div_nonneg
  · unfold categoryTotal
    apply List.sum_nonneg
    intro y hy
    rcases List.mem_map.mp hy with ⟨t, _, rfl⟩
    exact qabs_nonneg _
  · apply List.sum_nonneg
    intro y hy
    rcases List.mem_map.mp hy with ⟨t, _, rfl⟩
    exact qabs_nonneg _

/-- The savings band lies in `[0, 30]`. -/
lemma savingsBand_bounds (r : ℚ) : 0 ≤ savingsBand r ∧ savingsBand r ≤ 30 := by
  unfold savingsBand
  split_ifs <;> norm_num

/-- The 30-point CV band lies in `[0, 30]`. -/
lemma cvBand30_bounds (ms : List ℚ) : 0 ≤ cvBand30 ms ∧ cvBand30 ms ≤ 30 := by
  unfold cvBand30
  split_ifs <;> norm_num

/-- The 25-point CV band lies in `[0, 25]`. -/
lemma cvBand25_bounds (ms : List ℚ) : 0 ≤ cvBand25 ms ∧ cvBand25 ms ≤ 25 := by
  unfold cvBand25
  split_ifs <;> norm_num

/-- Component 1 lies in `[0, 30]`. -/
lemma savingsComponent_bounds (txs : List Tx) :
    0 ≤ savingsComponent txs ∧ savingsComponent txs ≤ 30 := by
  unfold savingsComponent
  split_ifs
  · exact cvBand30_bounds _
  · norm_num
  · norm_num
  · exact savingsBand_bounds _

/-- Component 2 lies in `[0, 20]`. -/
lemma diversificationScore_bounds (txs : List Tx) :
    0 ≤ diversificationScore txs ∧ diversificationScore txs ≤ 20 := by
  have hg : 0 ≤ giniOf txs := giniQ_nonneg _ (categoryShares_nonneg txs)
  unfold diversificationScore
  rw [qmax_eq_max]
  exact ⟨le_max_left 0 _, max_le (by norm_num) (by linarith)⟩

/-- Component 3 lies in `[0, 25]`. -/
lemma stabilityComponent_bounds (txs : List Tx) :
    0 ≤ stabilityComponent txs ∧ stabilityComponent txs ≤ 25 := by
  unfold stabilityComponent
  split_ifs
  · exact cvBand25_bounds _
  · norm_num

/-- Component 4 lies in `[0, 25]`. -/
lemma largeControlComponent_bounds (txs : List Tx) :
    0 ≤ largeControlComponent txs ∧ largeControlComponent txs ≤ 25 := by
  unfold largeControlComponent
  split_ifs <;> norm_num

/-- With at least one expense row the health-score computation completes and
returns the literal accumulators. -/
lemma health_some (txs : List Tx) (h : ∃ t ∈ txs, t.valor ≤ 0) :
    calculate_financial_health_score txs =
      some ⟨(savingsComponent txs + diversificationScore txs + stabilityComponent txs +
              largeControlComponent txs) / (30 + 20 + 25 + 25) * 100,
            savingsComponent txs + diversificationScore txs + stabilityComponent txs +
              largeControlComponent txs,
            30 + 20 + 25 + 25⟩ := by
  obtain ⟨t, ht, hv⟩ := h
  have hmem : t ∈ despesas txs := by
    apply List.mem_filter.mpr
    refine ⟨ht, ?_⟩
    simp only [isReceita, Bool.not_eq_eq_eq_not, Bool.not_true, decide_eq_false_iff_not]
    exact not_lt.mpr hv
  have hde : ¬ (despesas txs).isEmpty = true := by
    cases hD : despesas txs with
    | nil => rw [hD] at hmem; cases hmem
    | cons a l => simp [hD]
  have hte : ¬ txs.isEmpty = true := by
    cases txs with
    | nil => cases ht
    | cons a l => simp
  unfold calculate_financial_health_score
  rw [if_neg hte, if_neg hde]

/-- C1 (amended): for every transaction set containing at least one expense
row, `calculate_financial_health_score` completes and its score lies in
`[0, 100]`; without any expense row the computation divides by zero (see the
counterexample), so the original claim fails for a single income
transaction. -/
theorem c1_theorem (txs : List Tx) (h : ∃ t ∈ txs, t.valor ≤ 0) :
    ∃ r, calculate_financial_health_score txs = some r ∧ 0 ≤ r.score ∧ r.score ≤ 100 := by
  obtain ⟨hs1, hs2⟩ := savingsComponent_bounds txs
  obtain ⟨hd1, hd2⟩ := diversificationScore_bounds txs
  obtain ⟨ht1, ht2⟩ := stabilityComponent_bounds txs
  obtain ⟨hl1, hl2⟩ := largeControlComponent_bounds txs
  refine ⟨_, health_some txs h, ?_, ?_⟩ <;> dsimp only <;>
    rw [show ((30 : ℚ) + 20 + 25 + 25) = 100 by norm_num,
      div_mul_cancel₀ _ (by norm_num : (100 : ℚ) ≠ 0)]
  · linarith
  · linarith

/-- C1 witness: a single expense transaction completes with score `60`. -/
theorem c1_witness :
    (∃ t ∈ [(⟨1, "a", -5, "Outros"⟩ : Tx)], t.valor ≤ 0) ∧
      ∃ r, calculate_financial_health_score [(⟨1, "a", -5, "Outros"⟩ : Tx)] = some r ∧
        0 ≤ r.score ∧ r.score ≤ 100 := by
  have h : ∃ t ∈ [(⟨1, "a", -5, "Outros"⟩ : Tx)], t.valor ≤ 0 :=
    ⟨⟨1, "a", -5, "Outros"⟩, List.mem_singleton.mpr rfl, by norm_num⟩
  exact ⟨h, c1_theorem _ h⟩

/-- C10 (amended): for every transaction set with at least one expense row the
computation completes and the denominator (`max_score`) is exactly
`30 + 20 + 25 + 25 = 100` — each component's maximum is added unconditionally,
so a skipped component lowers the score instead of being renormalized away;
with no expense row the computation raises instead (see the
counterexample). -/
theorem c10_theorem (txs : List Tx) (h : ∃ t ∈ txs, t.valor ≤ 0) :
    ∃ r, calculate_financial_health_score txs = some r ∧ r.maxScore = 100 := by
  refine ⟨_, health_some txs h, ?_⟩
  dsimp only
  norm_num

/-- C10 witness: a concrete expense-bearing input with denominator 100. -/
theorem c10_witness :
    (∃ t ∈ [(⟨1, "b", 0, "Outros"⟩ : Tx)], t.valor ≤ 0) ∧
      ∃ r, calculate_financial_health_score [(⟨1, "b", 0, "Outros"⟩ : Tx)] = some r ∧
        r.maxScore = 100 := by
  have h : ∃ t ∈ [(⟨1, "b", 0, "Outros"⟩ : Tx)], t.valor ≤ 0 :=
    ⟨⟨1, "b", 0, "Outros"⟩, List.mem_singleton.mpr rfl, by norm_num⟩
  exact ⟨h, c10_theorem _ h⟩

/-- The sample variance is non-negative (numerator a sum of squares, the
denominator non-negative for non-empty lists, and the empty list gives `0`). -/
lemma sampleVar_nonneg (l : List ℚ) : 0 ≤ sampleVar l := by
  unfold sampleVar
  cases l with
  | nil => norm_num
  | cons x xs =>
    apply div_nonneg
    · apply List.sum_nonneg
      intro y hy
      rcases List.mem_map.mp hy with ⟨z, _, rfl⟩
      positivity
    · rw [List.length_cons]
      push_cast
      linarith [Nat.cast_nonneg (α := ℚ) xs.length]

/-- Bridge between the rational sign-and-square encoding of the spike test and
its float meaning: `spikeCond vals e` holds exactly when, over the reals,
`e > mean + 1.5 * sqrt(var)`. -/
lemma spikeCond_iff_real (vals : List ℚ) (e : ℚ) :
    spikeCond vals e = true ↔
      ((qmean vals : ℚ) : ℝ) + 3 / 2 * Real.sqrt ((sampleVar vals : ℚ) : ℝ) < ((e : ℚ) : ℝ) := by
  have hv : (0 : ℝ) ≤ ((sampleVar vals : ℚ) : ℝ) := by exact_mod_cast sampleVar_nonneg vals
  have hs0 : (0 : ℝ) ≤ Real.sqrt ((sampleVar vals : ℚ) : ℝ) := Real.sqrt_nonneg _
  have hs2 : Real.sqrt ((sampleVar vals : ℚ) : ℝ) ^ 2 = ((sampleVar vals : ℚ) : ℝ) :=
    Real.sq_sqrt hv
  unfold spikeCond
  rw [Bool.and_eq_true, decide_eq_true_eq, decide_eq_true_eq]
  constructor
  · rintro ⟨h1, h2⟩
    have h1' : ((qmean vals : ℚ) : ℝ) < ((e : ℚ) : ℝ) := by exact_mod_cast h1
    have h2' : 9 * ((sampleVar vals : ℚ) : ℝ) <
        4 * (((e : ℚ) : ℝ) - ((qmean vals : ℚ) : ℝ)) ^ 2 := by exact_mod_cast h2
    by_contra hc
    push_neg at hc
    nlinarith
  · intro h
    have h1' : ((qmean vals : ℚ) : ℝ) < ((e : ℚ) : ℝ) := by nlinarith
    have h2' : 9 * ((sampleVar vals : ℚ) : ℝ) <
        4 * (((e : ℚ) : ℝ) - ((qmean vals : ℚ) : ℝ)) ^ 2 := by nlinarith
    exact ⟨by exact_mod_cast h1', by exact_mod_cast h2'⟩

/-- Alerts of check 2 carry the `large_transaction` type. -/
lemma type_mem_largeAlerts (txs : List Tx) (a : FinancialAlert) (h : a ∈ largeAlerts txs) :
    a.type = "large_transaction" := by
  unfold largeAlerts at h
  rcases List.mem_map.mp h with ⟨t, _, rfl⟩
  rfl

/-- Alerts of check 3 carry the `category_overspending` type. -/
lemma type_mem_concentrationAlerts (txs : List Tx) (a : FinancialAlert)
    (h : a ∈ concentrationAlerts txs) : a.type = "category_overspending" := by
  unfold concentrationAlerts at h
  rcases List.mem_filterMap.mp h with ⟨c, _, hf⟩
  split_ifs at hf
  all_goals (cases Option.some.inj hf; rfl)

/-- Alerts of check 4 carry the `low_savings` type. -/
lemma type_mem_lowSavingsAlerts (txs : List Tx) (a : FinancialAlert)
    (h : a ∈ lowSavingsAlerts txs) : a.type = "low_savings" := by
  unfold lowSavingsAlerts at h
  split_ifs at h
  · cases h
  · rcases List.mem_filterMap.mp h with ⟨m, _, hf⟩
    split_ifs at hf
    all_goals (cases Option.some.inj hf; rfl)

/-- Alerts of check 5 carry the `establishment_growth` type. -/
lemma type_mem_growthAlerts (nb : Bool) (txs : List Tx) (a : FinancialAlert)
    (h : a ∈ growthAlerts nb txs) : a.type = "establishment_growth" := by
  unfold growthAlerts at h
  split_ifs at h
  · rcases List.mem_filterMap.mp h with ⟨s, _, hf⟩
    split_ifs at hf
    all_goals (cases Option.some.inj hf; rfl)
  · cases h

/-- The spike-alert search over the full alert list reduces to the spike
check: no other check emits the `expense_spike` type. -/
lemma hasSpike_detect (nb : Bool) (txs : List Tx) (m : Nat)
    (hne : ¬ (despesas txs).isEmpty = true) :
    hasSpikeAlert (detect_anomalies nb txs) m = hasSpikeAlert (spikeAlerts txs) m := by
  unfold detect_anomalies
  rw [if_neg hne]
  unfold hasSpikeAlert
  rw [List.any_append, List.any_append, List.any_append, List.any_append]
  have hB : ((if nb then largeAlerts txs else []).any
      (fun a => decide (a.type = "expense_spike" ∧ a.severity = "high" ∧ a.date = some m))) =
        false := by
    split_ifs
    · simp only [List.any_eq_false]
      intro a ha
      have := type_mem_largeAlerts txs a ha
      simp [this]
    · rfl
  have hC : ((concentrationAlerts txs).any
      (fun a => decide (a.type = "expense_spike" ∧ a.severity = "high" ∧ a.date = some m))) =
        false := by
    simp only [List.any_eq_false]
    intro a ha
    have := type_mem_concentrationAlerts txs a ha
    simp [this]
  have hD : ((lowSavingsAlerts txs).any
      (fun a => decide (a.type = "expense_spike" ∧ a.severity = "high" ∧ a.date = some m))) =
        false := by
    simp only [List.any_eq_false]
    intro a ha
    have := type_mem_lowSavingsAlerts txs a ha
    simp [this]
  have hE : ((growthAlerts nb txs).any
      (fun a => decide (a.type = "expense_spike" ∧ a.severity = "high" ∧ a.date = some m))) =
        false := by
    simp only [List.any_eq_false]
    intro a ha
    have := type_mem_growthAlerts nb txs a ha
    simp [this]
  rw [hB, hC, hD, hE]
  simp

/-- The value paired with a month in the monthly expense series is that
month's total. -/
lemma spike_mem_value (txs : List Tx) (m : Nat) (e : ℚ)
    (hm : (m, e) ∈ monthlyExpenses txs) : e = monthTotal (despesas txs) m := by
  unfold monthlyExpenses at hm
  rcases List.mem_map.mp hm with ⟨m', _, heq⟩
  have h1 : m' = m := congrArg Prod.fst heq
  have h2 := congrArg Prod.snd heq
  rw [h1] at h2
  exact h2.symm

/-- A month in the monthly expense series is one of the expense months. -/
lemma spike_mem_month (txs : List Tx) (m : Nat) (e : ℚ)
    (hm : (m, e) ∈ monthlyExpenses txs) : m ∈ monthsOf (despesas txs) := by
  unfold monthlyExpenses at hm
  rcases List.mem_map.mp hm with ⟨m', hm', heq⟩
  have h1 : m' = m := congrArg Prod.fst heq
  rw [← h1]
  exact hm'

/-- Characterization of the spike-alert search over check 1: a month gets a
spike alert exactly when at least 3 expense months exist and its total passes
the spike test. -/
lemma hasSpike_spikeAlerts_iff (txs : List Tx) (m : Nat) :
    hasSpikeAlert (spikeAlerts txs) m = true ↔
      (3 ≤ (monthlyExpenses txs).length ∧ m ∈ monthsOf (despesas txs) ∧
        spikeCond (spikeVals txs) (monthTotal (despesas txs) m) = true) := by
  unfold hasSpikeAlert spikeAlerts
  split_ifs with h3
  · rw [List.any_eq_true]
    constructor
    · rintro ⟨a, ha, hp⟩
      rcases List.mem_map.mp ha with ⟨q, hq, rfl⟩
      rw [decide_eq_true_eq] at hp
      obtain ⟨-, -, hdate⟩ := hp
      have hq1 : q.1 = m := Option.some.inj hdate
      have hqpair : (q.1, q.2) ∈ monthlyExpenses txs := by
        rw [Prod.mk.eta]
        exact (List.mem_filter.mp hq).1
      have hqcond : spikeCond (spikeVals txs) q.2 = true := (List.mem_filter.mp hq).2
      rw [hq1] at hqpair
      have he := spike_mem_value txs m q.2 hqpair
      refine ⟨h3, spike_mem_month txs m q.2 hqpair, ?_⟩
      rw [← he]
      exact hqcond
    · rintro ⟨-, hmm, hcond⟩
      refine ⟨⟨"expense_spike", "high", monthTotal (despesas txs) m, some m, none, none⟩, ?_, ?_⟩
      · apply List.mem_map.mpr
        refine ⟨(m, monthTotal (despesas txs) m), ?_, rfl⟩
        apply List.mem_filter.mpr
        exact ⟨List.mem_map.mpr ⟨m, hmm, rfl⟩, hcond⟩
      · simp
  · constructor
    · intro hfalse
      cases hfalse
    · rintro ⟨h3', -⟩
      exact absurd h3' h3

/-- A non-empty monthly expense series forces a non-empty expense subset. -/
lemma despesas_ne_of_monthly (txs : List Tx) (h : 0 < (monthlyExpenses txs).length) :
    ¬ (despesas txs).isEmpty = true := by
  intro hD
  have hnil : despesas txs = [] := List.isEmpty_iff.mp hD
  rw [monthlyExpenses, hnil] at h
  simp [monthsOf, List.dedup] at h

/-- C6: with at least 3 months of expense totals, a month whose total is
exactly `mean + 1.5 * std` (read over the reals) triggers no spike alert in
`detect_anomalies`, while a month strictly above that threshold triggers the
high-severity spike alert — the comparison is strict. -/
theorem c6_theorem (nb : Bool) (txs : List Tx) (m : Nat) (e : ℚ)
    (h3 : 3 ≤ (monthlyExpenses txs).length)
    (hm : (m, e) ∈ monthlyExpenses txs) :
    (((e : ℚ) : ℝ) = ((qmean (spikeVals txs) : ℚ) : ℝ) +
          3 / 2 * Real.sqrt ((sampleVar (spikeVals txs) : ℚ) : ℝ) →
        hasSpikeAlert (detect_anomalies nb txs) m = false) ∧
      (((qmean (spikeVals txs) : ℚ) : ℝ) +
          3 / 2 * Real.sqrt ((sampleVar (spikeVals txs) : ℚ) : ℝ) < ((e : ℚ) : ℝ) →
        hasSpikeAlert (detect_anomalies nb txs) m = true) := by
  have hne : ¬ (despesas txs).isEmpty = true := despesas_ne_of_monthly txs (by omega)
  have hkey := hasSpike_detect nb txs m hne
  have he := spike_mem_value txs m e hm
  have hmem : m ∈ monthsOf (despesas txs) := spike_mem_month txs m e hm
  constructor
  · intro heq
    rw [hkey]
    rw [Bool.eq_false_iff]
    intro htrue
    obtain ⟨-, -, hcond⟩ := (hasSpike_spikeAlerts_iff txs m).mp htrue
    rw [← he] at hcond
    have hlt := (spikeCond_iff_real (spikeVals txs) e).mp hcond
    rw [← heq] at hlt
    exact lt_irrefl _ hlt
  · intro hgt
    rw [hkey]
    apply (hasSpike_spikeAlerts_iff txs m).mpr
    refine ⟨h3, hmem, ?_⟩
    rw [← he]
    exact (spikeCond_iff_real (spikeVals txs) e).mpr hgt

/-- C6 witness: on monthly totals `[0, 0, 0, 4]` (mean 1, sample variance 4,
so `mean + 1.5 * std = 4` exactly) the month with total 4 produces no spike
alert. -/
theorem c6_witness :
    3 ≤ (monthlyExpenses w6txs).length ∧ ((4 : ℕ), (4 : ℚ)) ∈ monthlyExpenses w6txs ∧
      hasSpikeAlert (detect_anomalies true w6txs) 4 = false := by
  have h3 : 3 ≤ (monthlyExpenses w6txs).length := by
    norm_num [monthlyExpenses, monthsOf, w6txs, despesas, isReceita, List.dedup,
      List.pwFilter, List.insertionSort, List.orderedInsert]
  have hm : ((4 : ℕ), (4 : ℚ)) ∈ monthlyExpenses w6txs := by
    norm_num [monthlyExpenses, monthsOf, monthTotal, w6txs, despesas, isReceita,
      valorAbsoluto, qabs, List.dedup, List.pwFilter, List.insertionSort,
      List.orderedInsert]
  refine ⟨h3, hm, ?_⟩
  apply (c6_theorem true w6txs 4 4 h3 hm).1
  have hmean : qmean (spikeVals w6txs) = 1 := by
    norm_num [qmean, spikeVals, monthlyExpenses, monthsOf, monthTotal, w6txs, despesas,
      isReceita, valorAbsoluto, qabs, List.dedup, List.pwFilter, List.insertionSort,
      List.orderedInsert]
  have hvar : sampleVar (spikeVals w6txs) = 4 := by
    norm_num [sampleVar, qmean, spikeVals, monthlyExpenses, monthsOf, monthTotal, w6txs,
      despesas, isReceita, valorAbsoluto, qabs, List.dedup, List.pwFilter,
      List.insertionSort, List.orderedInsert]
  rw [hmean, hvar]
  have hsq : ((4 : ℚ) : ℝ) = (2 : ℝ) ^ 2 := by norm_num
  rw [hsq, Real.sqrt_sq (by norm_num : (0 : ℝ) ≤ 2)]
  norm_num
